import Mathlib

/-!
# Crash game: session controller and chain client

A shallow embedding of `src/components/CrashGame.tsx` (the session controller) and
`src/utils/ethers.js` (the chain client), with the JavaScript number and string
primitives they call.

* JavaScript numbers that occur are non-negative; a finite one is carried as a
  multiple of `2^-1074`, the spacing of the smallest binary64 values, so that every
  finite binary64 value is represented exactly.
* An `async` function is cut at its `await`s: the part up to the first `await` is a
  function on the controller state, and every suspended rest is a `Cont` kept in
  `pending` until the awaited call answers.
* `setInterval` appends to a table of timers; the handle is the position in the table.
-/

set_option exponentiation.threshold 4000
set_option maxRecDepth 100000

namespace CrashGame

/-! ## JavaScript numbers -/

/-- A non-negative JavaScript number: `finite u` is the binary64 value `u * 2^-1074`. -/
inductive JSNumber where
  | nan
  | infinity
  | finite (units : Nat)
  deriving DecidableEq, Repr

/-- The number of `2^-1074` units in `1`. -/
def unitsPerOne : Nat := 2 ^ 1074

/-- Nearest integer to `n / d`, a tie going to the even neighbour. -/
def roundHalfEven (n d : Nat) : Nat :=
  let q := n / d
  let r := n % d
  if 2 * r < d then q
  else if d < 2 * r then q + 1
  else if q % 2 = 0 then q else q + 1

/-- Halving count: `log2Fuel n n` is `floor (log2 n)` for `n > 0`, and `0` for `n = 0`. -/
def log2Fuel : Nat → Nat → Nat
  | 0, _ => 0
  | fuel + 1, n => if n < 2 then 0 else log2Fuel fuel (n / 2) + 1

/-- The position of the highest set bit of `n`. -/
def floorLog2 (n : Nat) : Nat := log2Fuel n n

/-- The binary exponent, offset by 1074, of the binary64 grid around `n / d`:
`floor (log2 (n / d)) - 52 + 1074`, and `0` in the subnormal range. -/
def gridExponent (n d : Nat) : Nat :=
  let ln := floorLog2 n
  let ld := floorLog2 d
  let hi := if d * 2 ^ ln ≤ n * 2 ^ ld then 1 else 0
  (ln + 1022 + hi) - (ld + 1)

/-- The binary64 value of the real number `n / d` (`d > 0`): round to nearest, ties to
even, overflowing to `Infinity`. -/
def toBinary64 (n d : Nat) : JSNumber :=
  let e := gridExponent n d
  let m := roundHalfEven (n * 2 ^ 1074) (d * 2 ^ e)
  let u := m * 2 ^ e
  if 2 ^ 2098 ≤ u then .infinity else .finite u

/-- JavaScript `x < k` for a non-negative integer literal `k`. -/
def JSNumber.ltNat : JSNumber → Nat → Bool
  | .nan, _ => false
  | .infinity, _ => false
  | .finite u, k => decide (u < k * unitsPerOne)

/-- JavaScript `Number(v)` for a non-negative bigint `v` below `2^1024` (every
`uint256` is): the integer value of the nearest binary64. -/
def numberOfBigInt (v : Nat) : Nat :=
  let e := gridExponent v 1
  roundHalfEven (v * 2 ^ 1074) (2 ^ e) * 2 ^ e / 2 ^ 1074

/-- JavaScript `a / b` on integer-valued numbers `a` and `b > 0`. -/
def divNumber (a b : Nat) : JSNumber := toBinary64 a b

/-! ## JavaScript strings of numbers -/

/-- The character of a decimal digit `d < 10`. -/
def digitChar (d : Nat) : Char := Char.ofNat (48 + d)

/-- Decimal digits of `n` pushed in front of `acc`, most significant first. -/
def decimalAux : Nat → Nat → List Char → List Char
  | 0, _, acc => acc
  | fuel + 1, n, acc =>
    if n < 10 then digitChar n :: acc
    else decimalAux fuel (n / 10) (digitChar (n % 10) :: acc)

/-- The decimal digits of `n` (JavaScript `n.toString()` for a non-negative integer). -/
def decimalDigits (n : Nat) : List Char := decimalAux (n + 1) n []

/-- The value of a list of decimal digit characters, and `none` on any other character. -/
def digitsValue : List Char → Nat → Option Nat
  | [], acc => some acc
  | c :: cs, acc => if c.isDigit then digitsValue cs (acc * 10 + (c.toNat - 48)) else none

/-- Remove leading `0`s, keeping the last character. -/
def trimLeadingZeros : List Char → List Char
  | c :: d :: cs => if c = '0' then trimLeadingZeros (d :: cs) else c :: d :: cs
  | cs => cs

/-- Remove trailing `0`s, keeping the first character. -/
def trimTrailingZeros (cs : List Char) : List Char :=
  (trimLeadingZeros cs.reverse).reverse

/-- The loop `while (str.length <= decimals) str = "0000" + str` of ethers. -/
def padWhole : Nat → Nat → List Char → List Char
  | 0, _, str => str
  | fuel + 1, decimals, str =>
    if str.length ≤ decimals then padWhole fuel decimals (['0', '0', '0', '0'] ++ str) else str

/-- The ethers function `formatUnits(value, decimals)` for `value ≥ 0`, `decimals > 0`:
the digits of `value` with a point `decimals` places from the right, at least one
digit on each side, no other leading or trailing zero. -/
def formatUnits (value decimals : Nat) : String :=
  let str := padWhole (decimals + 1) decimals (decimalDigits value)
  let index := str.length - decimals
  String.mk (trimLeadingZeros (str.take index) ++ '.' :: trimTrailingZeros (str.drop index))

/-- The ethers function `formatEther(wei)`: `formatUnits(wei, 18)`. -/
def formatEther (wei : Nat) : String := formatUnits wei 18

/-- The exponent part `e`, `e+` or `e-` followed by digits, of a decimal literal: the
sign (`true` for `-`) and the magnitude; `none` when the characters are not one. -/
def parseExponent : List Char → Option (Bool × Nat)
  | [] => none
  | c :: cs =>
    if c = 'e' ∨ c = 'E' then
      let neg := cs.head? = some '-'
      let rest := if cs.head? = some '-' ∨ cs.head? = some '+' then cs.tail else cs
      let ds := rest.takeWhile Char.isDigit
      if ds = [] then none else (digitsValue ds 0).map fun v => (neg, v)
    else none

/-- JavaScript `parseFloat(s)` on an unsigned literal: the longest leading
`digits [. digits] [exponent]`, `. digits [exponent]` or `Infinity` is read and rounded
to binary64; anything else is `NaN`. -/
def parseFloat (s : String) : JSNumber :=
  let cs := s.toList.dropWhile Char.isWhitespace
  if "Infinity".toList.isPrefixOf cs then .infinity else
  let whole := cs.takeWhile Char.isDigit
  let rest := cs.dropWhile Char.isDigit
  let frac := if rest.head? = some '.' then rest.tail.takeWhile Char.isDigit else []
  let rest := if rest.head? = some '.' then rest.tail.dropWhile Char.isDigit else rest
  if whole = [] ∧ frac = [] then .nan else
  match digitsValue (whole ++ frac) 0 with
  | none => .nan
  | some v =>
    match parseExponent rest with
    | some (false, e) => toBinary64 (v * 10 ^ e) (10 ^ frac.length)
    | some (true, e) => toBinary64 v (10 ^ (frac.length + e))
    | none => toBinary64 v (10 ^ frac.length)

/-- Left-pad with `0` up to `len` characters. -/
def padZeros (len : Nat) (cs : List Char) : List Char :=
  List.replicate (len - cs.length) '0' ++ cs

/-- The candidates for the shortest decimal `s * 10^p` that reads back as the integer
value `x`: with `k` digits, the two neighbours of `x / 10^p`. -/
def shortestCandidates (x k : Nat) : List (Nat × Nat) :=
  let p := (decimalDigits x).length - k
  let lo := x / 10 ^ p
  [(lo, p), (lo + 1, p)].filter fun c => toBinary64 (c.1 * 10 ^ c.2) 1 = toBinary64 x 1

/-- The first digit count `k`, counting up to 17, with a candidate; of two candidates
the one nearer to `x`. -/
def shortestDecimal (x : Nat) : Nat → Nat → Nat × Nat
  | 0, _ => (x, 0)
  | fuel + 1, k =>
    match shortestCandidates x k with
    | [] => shortestDecimal x fuel (k + 1)
    | [c] => c
    | c :: c2 :: _ =>
      if x - c.1 * 10 ^ c.2 ≤ c2.1 * 10 ^ c2.2 - x then c else c2

/-- JavaScript `String(x)` for a finite `x ≥ 10^21`, given by its integer value: the
shortest digits that read back as `x`, in exponent form. -/
def exponentString (x : Nat) : String :=
  let c := shortestDecimal x 17 1
  let all := decimalDigits c.1
  let ds := trimTrailingZeros all
  let e := all.length + c.2 - 1
  let mant := if ds.length ≤ 1 then ds else ds.take 1 ++ '.' :: ds.drop 1
  String.mk (mant ++ 'e' :: '+' :: decimalDigits e)

/-- JavaScript `x.toFixed(f)` for `x ≥ 0` and `0 < f`: below `10^21`, the integer `n`
nearest to `x * 10^f` (of two, the larger) is written with at least `f + 1` digits and a
point `f` places from the right. -/
def toFixed (x : JSNumber) (f : Nat) : String :=
  match x with
  | .nan => "NaN"
  | .infinity => "Infinity"
  | .finite u =>
    if 10 ^ 21 * unitsPerOne ≤ u then exponentString (u / unitsPerOne) else
    let n := (u * 10 ^ f + unitsPerOne / 2) / unitsPerOne
    let m := padZeros (f + 1) (decimalDigits n)
    String.mk (m.take (m.length - f) ++ '.' :: m.drop (m.length - f))

/-! ## Chain client (`src/utils/ethers.js`) -/

/-- What `contract.interface.parseLog` makes of one log of a receipt: an event of the
ABI with its arguments, or `unparsed` when it returns `null` or throws. -/
inductive ParsedLog where
  | gameStarted (gameId : Nat) (player : String) (betAmount : Nat)
  | gameWithdrawn (gameId : Nat) (player : String) (multiplier payout : Nat)
  | gameCrashed (gameId : Nat) (player : String) (crashPoint : Nat)
  | fundsDeposited (player : String) (amount : Nat)
  | unparsed
  deriving DecidableEq, Repr

/-- The tuple returned by the contract call `getGameInfo(gameId)`. -/
structure RawGameInfo where
  player : String
  betAmount : Nat
  multiplier : Nat
  startTime : Nat
  crashPoint : Nat
  isActive : Bool
  hasWithdrawn : Bool
  hasCrashed : Bool
  deriving DecidableEq, Repr

/-- What the wallet provider or the contract answers to one awaited call; `failure m` is
a rejection with an error whose `message` is `m`. Integers are `uint256` words. -/
inductive Response where
  | failure (message : String)
  | accounts (first : Option String)
  | balance (address : String) (wei : Nat)
  | uint (value : Nat)
  | bool (value : Bool)
  | receipt (logs : List ParsedLog)
  | gameInfo (info : RawGameInfo)
  deriving DecidableEq, Repr

/-- The record returned by `getWalletBalance`. -/
structure WalletInfo where
  address : String
  balance : String
  deriving DecidableEq, Repr

/-- The record returned by `getGameInfo`. -/
structure GameInfo where
  player : String
  betAmount : String
  multiplier : Nat
  startTime : Nat
  crashPoint : Nat
  isActive : Bool
  hasWithdrawn : Bool
  hasCrashed : Bool
  deriving DecidableEq, Repr

/-- The record returned by `withdrawFromGame` when the event is found. -/
structure WithdrawResult where
  multiplier : Nat
  payout : String
  deriving DecidableEq, Repr

/-- The function `getWalletBalance`, on the address and balance the provider returned. -/
def getWalletBalance (address : String) (balance : Nat) : WalletInfo :=
  { address := address, balance := formatEther balance }

/-- The function `getContractBalance`, on the balance the contract returned. -/
def getContractBalance (balance : Nat) : String := formatEther balance

/-- The predicate of `receipt.logs.find` in `startGame`. -/
def isGameStarted : ParsedLog → Bool
  | .gameStarted _ _ _ => true
  | _ => false

/-- The predicate of `receipt.logs.find` in `withdrawFromGame`. -/
def isGameWithdrawn : ParsedLog → Bool
  | .gameWithdrawn _ _ _ _ => true
  | _ => false

/-- The function `startGame`, on the logs of the confirmed receipt. -/
def startGame (logs : List ParsedLog) : Except String Nat :=
  match logs.find? isGameStarted with
  | some (.gameStarted gameId _ _) => .ok (numberOfBigInt gameId)
  | _ => .error "Impossible de récupérer l'ID du jeu"

/-- The function `withdrawFromGame`, on the logs of the confirmed receipt. -/
def withdrawFromGame (logs : List ParsedLog) : Option WithdrawResult :=
  match logs.find? isGameWithdrawn with
  | some (.gameWithdrawn _ _ multiplier payout) =>
    some { multiplier := numberOfBigInt multiplier, payout := formatEther payout }
  | _ => none

/-- The function `getCurrentMultiplier`, on the word the contract returned. -/
def getCurrentMultiplier (multiplier : Nat) : Nat := numberOfBigInt multiplier

/-- The function `getPlayerCurrentGame`, on the word the contract returned. -/
def getPlayerCurrentGame (gameId : Nat) : Nat := numberOfBigInt gameId

/-- The function `getGameInfo`, on the tuple the contract returned. -/
def getGameInfo (info : RawGameInfo) : GameInfo :=
  { player := info.player
    betAmount := formatEther info.betAmount
    multiplier := numberOfBigInt info.multiplier
    startTime := numberOfBigInt info.startTime
    crashPoint := numberOfBigInt info.crashPoint
    isActive := info.isActive
    hasWithdrawn := info.hasWithdrawn
    hasCrashed := info.hasCrashed }

/-! ## Session controller (`src/components/CrashGame.tsx`) -/

/-- The values of `gameStatus`. -/
inductive GameStatus where
  | idle | waiting | playing | crashed | won
  deriving DecidableEq, Repr

/-- The callback of an interval, with the session id its closure captured. -/
inductive TimerKind where
  | countdown (newGameId : Nat)
  | multiplier (currentGameId : Nat)
  | statusCheck (currentGameId : Nat)
  deriving DecidableEq, Repr

/-- An interval created by `setInterval`; `clearInterval` makes it inactive. -/
structure Timer where
  kind : TimerKind
  active : Bool
  deriving DecidableEq, Repr

/-- What the caller of `updateBalances` does when it returns. -/
inductive After where
  /-- The `finally` of `handleStartGame` and `handleWithdraw`: `setIsLoading(false)`. -/
  | finishLoading
  /-- The status check: nothing follows. -/
  | nothing
  /-- The two connection paths: `checkExistingGame(wallet)` follows; `viaButton` is
  `handleConnectWallet`, whose `finally` clears the loading flag. -/
  | checkExisting (wallet : Option String) (viaButton : Bool)
  deriving DecidableEq, Repr

/-- A suspended `async` function: the call it awaits and what it captured. -/
inductive Cont where
  /-- Awaiting `connectWallet()` in `checkWalletConnection` or in `handleConnectWallet`. -/
  | connect (viaButton : Bool)
  /-- Awaiting `getWalletBalance()` in `updateBalances`. -/
  | balWallet (k : After)
  /-- Awaiting `getContractBalance()` in `updateBalances`. -/
  | balContract (walletInfo : WalletInfo) (k : After)
  /-- Awaiting `getPlayerCurrentGame(walletAddress)` in `checkExistingGame`. -/
  | existingId (walletAddress : Option String) (viaButton : Bool)
  /-- Awaiting `getGameInfo(currentGameId)` in `checkExistingGame`. -/
  | existingInfo (currentGameId : Nat) (viaButton : Bool)
  /-- Awaiting `getWalletBalance()` in `handleStartGame`. -/
  | startBalance
  /-- Awaiting `startGame()` in `handleStartGame`. -/
  | startTx
  /-- Awaiting `getCurrentMultiplier(currentGameId)` in the multiplier callback. -/
  | multiplier (currentGameId : Nat)
  /-- Awaiting `checkGameStatus(currentGameId)` in the status callback. -/
  | statusCheck (currentGameId : Nat)
  /-- Awaiting `getGameInfo(currentGameId)` in the crash branch of the status callback. -/
  | statusInfo (currentGameId : Nat)
  /-- Awaiting `withdrawFromGame(gameId)` in `handleWithdraw`. -/
  | withdrawTx (gameId : Nat)
  deriving DecidableEq, Repr

/-- The state of the component: the `useState` cells, the three `useRef` handles, the
table of intervals and the suspended `async` functions. -/
structure Controller where
  account : Option String
  walletBalance : String
  contractBalance : String
  gameId : Option Nat
  gameStatus : GameStatus
  multiplier : Nat
  countdown : Nat
  isLoading : Bool
  error : Option String
  lastPayout : Option String
  gameTimerRef : Option Nat
  countdownTimerRef : Option Nat
  statusCheckRef : Option Nat
  timers : List Timer
  pending : List Cont
  deriving DecidableEq, Repr

/-- The component after its first render: the initial `useState` values, and the mount
effect has called `checkWalletConnection`, which awaits `connectWallet()`. -/
def Controller.initial : Controller :=
  { account := none
    walletBalance := "0"
    contractBalance := "0"
    gameId := none
    gameStatus := .idle
    multiplier := 100
    countdown := 0
    isLoading := false
    error := none
    lastPayout := none
    gameTimerRef := none
    countdownTimerRef := none
    statusCheckRef := none
    timers := []
    pending := [.connect false] }

/-- JavaScript truthiness of a `string | null | undefined`. -/
def truthy : Option String → Bool
  | some s => s ≠ ""
  | none => false

/-- The expression `error.message || fallback`. -/
def messageOr (message fallback : String) : String :=
  if message = "" then fallback else message

/-- The handle `setInterval` returns next: positions in the table count from 1. -/
def newHandle (w : Controller) : Nat := w.timers.length + 1

/-- The call `setInterval(callback, delay)`: a new active interval. -/
def setInterval (kind : TimerKind) (w : Controller) : Controller :=
  { w with timers := w.timers ++ [{ kind := kind, active := true }] }

/-- Make the entry at a position inactive. -/
def deactivate : Nat → List Timer → List Timer
  | _, [] => []
  | 0, t :: ts => { t with active := false } :: ts
  | i + 1, t :: ts => t :: deactivate i ts

/-- The table after `clearInterval(handle)`: handle `i + 1` is position `i`, and no
interval has handle `0`. -/
def cancel (ts : List Timer) : Nat → List Timer
  | 0 => ts
  | i + 1 => deactivate i ts

/-- The call `clearInterval(handle)`. -/
def clearInterval (handle : Nat) (w : Controller) : Controller :=
  { w with timers := cancel w.timers handle }

/-- The statement `if (ref.current) clearInterval(ref.current)`. -/
def clearRef (ref : Option Nat) (w : Controller) : Controller :=
  match ref with
  | some handle => if handle ≠ 0 then clearInterval handle w else w
  | none => w

/-- The interval a handle stands for in a table, when it is still active. -/
def timerAt (ts : List Timer) : Nat → Option TimerKind
  | 0 => none
  | i + 1 =>
    match ts[i]? with
    | some t => if t.active then some t.kind else none
    | none => none

/-- The interval behind a handle, when it is still active. -/
def activeTimer (w : Controller) (handle : Nat) : Option TimerKind :=
  timerAt w.timers handle

/-- The handles of the intervals that are still active. -/
def activeHandles (w : Controller) : List Nat :=
  (List.range (w.timers.length + 1)).filter fun handle => (activeTimer w handle).isSome

/-- The function `startGameLoop(currentGameId)`. -/
def startGameLoop (currentGameId : Nat) (w : Controller) : Controller :=
  let w := { setInterval (.multiplier currentGameId) w with gameTimerRef := some (newHandle w) }
  { setInterval (.statusCheck currentGameId) w with statusCheckRef := some (newHandle w) }

/-- The function `updateBalances`, up to its first `await`. -/
def updateBalances (k : After) (w : Controller) : Controller :=
  { w with pending := .balWallet k :: w.pending }

/-- The function `checkExistingGame(walletAddress)`, up to its first `await`. -/
def checkExistingGame (walletAddress : Option String) (viaButton : Bool) (w : Controller) :
    Controller :=
  { w with pending := .existingId walletAddress viaButton :: w.pending }

/-- The end of `checkExistingGame`: back in `handleConnectWallet` its `finally` runs. -/
def afterExisting (viaButton : Bool) (w : Controller) : Controller :=
  if viaButton then { w with isLoading := false } else w

/-- The return of `updateBalances` to its caller. -/
def afterBalances (k : After) (w : Controller) : Controller :=
  match k with
  | .finishLoading => { w with isLoading := false }
  | .nothing => w
  | .checkExisting wallet viaButton => checkExistingGame wallet viaButton w

/-- The function `handleConnectWallet`, up to its first `await`. -/
def handleConnectWallet (w : Controller) : Controller :=
  { w with isLoading := true, error := none, pending := .connect true :: w.pending }

/-- The function `handleStartGame`, up to its first `await`. -/
def handleStartGame (w : Controller) : Controller :=
  { w with isLoading := true, error := none, lastPayout := none,
           pending := .startBalance :: w.pending }

/-- The `catch` and `finally` of `handleStartGame`. -/
def startFailed (message : String) (w : Controller) : Controller :=
  { w with error := some (messageOr message "Erreur lors du démarrage du jeu"),
           gameStatus := .idle, isLoading := false }

/-- The `catch` and `finally` of `handleWithdraw`. -/
def withdrawFailed (message : String) (w : Controller) : Controller :=
  { w with error := some (messageOr message "Erreur lors du retrait"), isLoading := false }

/-- The updater the countdown callback passes to `setCountdown`. -/
def countdownTick (newGameId : Nat) (w : Controller) : Controller :=
  if w.countdown ≤ 1 then
    let w := clearRef w.countdownTimerRef w
    let w := { w with gameStatus := .playing }
    let w := startGameLoop newGameId w
    { w with countdown := 0 }
  else { w with countdown := w.countdown - 1 }

/-- The function `handleWithdraw`, up to its first `await`. -/
def handleWithdraw (w : Controller) : Controller :=
  match w.gameId with
  | none => w
  | some 0 => w
  | some gameId =>
    { w with isLoading := true, error := none, pending := .withdrawTx gameId :: w.pending }

/-- The function `resetGame`. -/
def resetGame (w : Controller) : Controller :=
  let w := { w with gameId := none, gameStatus := .idle, multiplier := 100, countdown := 0,
                    error := none, lastPayout := none }
  let w := clearRef w.gameTimerRef w
  let w := clearRef w.countdownTimerRef w
  clearRef w.statusCheckRef w

/-- The cleanup of the first effect, run when the component is torn down. -/
def cleanup (w : Controller) : Controller :=
  let w := clearRef w.gameTimerRef w
  let w := clearRef w.countdownTimerRef w
  clearRef w.statusCheckRef w

/-- The function `formatMultiplier`. -/
def formatMultiplier (mult : Nat) : String :=
  toFixed (divNumber mult 100) 2 ++ "x"

/-- The rest of a suspended function once its call has answered. An answer of a shape
the call cannot give is no event of the system. -/
def continueWith (c : Cont) (r : Response) (w : Controller) : Option Controller :=
  match c, r with
  -- checkWalletConnection: `if (wallet) { setAccount; updateBalances; checkExistingGame }`
  | .connect false, .accounts wallet =>
    if truthy wallet then
      some (updateBalances (.checkExisting wallet false) { w with account := wallet })
    else some w
  | .connect false, .failure _ => some w
  -- handleConnectWallet
  | .connect true, .accounts wallet =>
    some (updateBalances (.checkExisting wallet true) { w with account := wallet })
  | .connect true, .failure m =>
    some { w with error := some (messageOr m "Erreur de connexion"), isLoading := false }
  -- updateBalances
  | .balWallet k, .balance address wei =>
    some { w with pending := .balContract (getWalletBalance address wei) k :: w.pending }
  | .balWallet k, .failure _ => some (afterBalances k w)
  | .balContract walletInfo k, .uint wei =>
    some (afterBalances k
      { w with walletBalance := toFixed (parseFloat walletInfo.balance) 4,
               contractBalance := toFixed (parseFloat (getContractBalance wei)) 4 })
  | .balContract _ k, .failure _ => some (afterBalances k w)
  -- checkExistingGame
  | .existingId _ viaButton, .uint v =>
    if 0 < getPlayerCurrentGame v then
      some { w with pending := .existingInfo (getPlayerCurrentGame v) viaButton :: w.pending }
    else some (afterExisting viaButton w)
  | .existingId _ viaButton, .failure _ => some (afterExisting viaButton w)
  | .existingInfo currentGameId viaButton, .gameInfo info =>
    let gameInfo := getGameInfo info
    if gameInfo.isActive && !gameInfo.hasWithdrawn && !gameInfo.hasCrashed then
      some (afterExisting viaButton
        (startGameLoop currentGameId
          { w with gameId := some currentGameId, gameStatus := .playing }))
    else some (afterExisting viaButton w)
  | .existingInfo _ viaButton, .failure _ => some (afterExisting viaButton w)
  -- handleStartGame
  | .startBalance, .balance address wei =>
    if (parseFloat (getWalletBalance address wei).balance).ltNat 1 then
      some (startFailed "Solde insuffisant (minimum 1 ETH requis)" w)
    else some { w with pending := .startTx :: w.pending }
  | .startBalance, .failure m => some (startFailed m w)
  | .startTx, .receipt logs =>
    match startGame logs with
    | .ok newGameId =>
      let w := { w with gameId := some newGameId, gameStatus := .waiting, multiplier := 100,
                        countdown := 3 }
      let w := { setInterval (.countdown newGameId) w with
                 countdownTimerRef := some (newHandle w) }
      some (updateBalances .finishLoading w)
    | .error m => some (startFailed m w)
  | .startTx, .failure m => some (startFailed m w)
  -- the multiplier callback
  | .multiplier _, .uint v => some { w with multiplier := getCurrentMultiplier v }
  | .multiplier _, .failure _ => some w
  -- the status callback
  | .statusCheck currentGameId, .bool isActive =>
    if !isActive then
      let w := clearRef w.gameTimerRef w
      let w := clearRef w.statusCheckRef w
      some { w with pending := .statusInfo currentGameId :: w.pending }
    else some w
  | .statusCheck _, .failure _ => some w
  | .statusInfo _, .gameInfo info =>
    some (updateBalances .nothing
      { w with gameStatus := .crashed, multiplier := (getGameInfo info).crashPoint })
  | .statusInfo _, .failure _ => some w
  -- handleWithdraw
  | .withdrawTx _, .receipt logs =>
    let w := match withdrawFromGame logs with
      | some result =>
        { w with lastPayout := some result.payout, gameStatus := .won,
                 multiplier := result.multiplier }
      | none => w
    let w := clearRef w.gameTimerRef w
    let w := clearRef w.statusCheckRef w
    some (updateBalances .finishLoading w)
  | .withdrawTx _, .failure m => some (withdrawFailed m w)
  | _, _ => none

/-- An awaited call answers: the suspended function leaves `pending` and runs on. -/
def resume (c : Cont) (r : Response) (w : Controller) : Option Controller :=
  if c ∈ w.pending then continueWith c r { w with pending := w.pending.erase c } else none

/-- An interval fires: the synchronous part of its callback runs. -/
def fire (handle : Nat) (w : Controller) : Option Controller :=
  match activeTimer w handle with
  | some (.countdown newGameId) => some (countdownTick newGameId w)
  | some (.multiplier currentGameId) =>
    some { w with pending := .multiplier currentGameId :: w.pending }
  | some (.statusCheck currentGameId) =>
    some { w with pending := .statusCheck currentGameId :: w.pending }
  | none => none

/-- What can happen to the component. -/
inductive Event where
  | clickConnect
  | clickStart
  | clickWithdraw
  | clickReset
  | tick (handle : Nat)
  | answer (c : Cont) (r : Response)
  | unmount
  deriving DecidableEq, Repr

/-- One event: a button can be clicked only while it is rendered and not disabled. -/
def step (w : Controller) : Event → Option Controller
  | .clickConnect =>
    if !truthy w.account && !w.isLoading then some (handleConnectWallet w) else none
  | .clickStart =>
    if truthy w.account && w.gameStatus = .idle
        && !(w.isLoading || (parseFloat w.walletBalance).ltNat 1) then
      some (handleStartGame w) else none
  | .clickWithdraw =>
    if truthy w.account && w.gameStatus = .playing && !w.isLoading then
      some (handleWithdraw w) else none
  | .clickReset =>
    if truthy w.account && (w.gameStatus = .crashed || w.gameStatus = .won) then
      some (resetGame w) else none
  | .tick handle => fire handle w
  | .answer c r => resume c r w
  | .unmount => some (cleanup w)

/-- A sequence of events from a state; `none` when one of them cannot happen. -/
def run (w : Controller) : List Event → Option Controller
  | [] => some w
  | e :: es => (step w e).bind fun w => run w es

/-- The answers to a sequence of awaited calls, in order. -/
def resumeAll (w : Controller) : List (Cont × Response) → Option Controller
  | [] => some w
  | (c, r) :: rest => (resume c r w).bind fun w => resumeAll w rest

/-- How a call of `updateBalances` goes: `getWalletBalance` fails, or it answers and
`getContractBalance` fails, or both answer. -/
inductive Refresh where
  | walletFailed (message : String)
  | contractFailed (address : String) (wei : Nat) (message : String)
  | refreshed (address : String) (wei : Nat) (contractWei : Nat)
  deriving DecidableEq, Repr

/-- The answers a call of `updateBalances` made by caller `k` receives. -/
def Refresh.answers (k : After) : Refresh → List (Cont × Response)
  | .walletFailed m => [(.balWallet k, .failure m)]
  | .contractFailed address wei m =>
    [(.balWallet k, .balance address wei),
     (.balContract (getWalletBalance address wei) k, .failure m)]
  | .refreshed address wei contractWei =>
    [(.balWallet k, .balance address wei),
     (.balContract (getWalletBalance address wei) k, .uint contractWei)]

/-- The rendering the specification gives for a multiplier: the digits of `m / 100`, a
point, the two digits of `m % 100`, and `x`. -/
def renderHundredths (m : Nat) : String :=
  String.mk (decimalDigits (m / 100) ++ ['.', digitChar (m % 100 / 10), digitChar (m % 10)])
    ++ "x"

/-! ## Executions used below -/

/-- A game record of session 7 while it runs. -/
def activeInfo : RawGameInfo :=
  { player := "0xabc", betAmount := 10 ^ 18, multiplier := 100, startTime := 1700000000,
    crashPoint := 250, isActive := true, hasWithdrawn := false, hasCrashed := false }

/-- A game record of session 7 after it crashed at 2.50x. -/
def crashedInfo : RawGameInfo :=
  { player := "0xabc", betAmount := 10 ^ 18, multiplier := 250, startTime := 1700000000,
    crashPoint := 250, isActive := false, hasWithdrawn := false, hasCrashed := true }

/-- One connection path to its end: the wallet answers with an account holding 5 ETH,
the contract holds 100 ETH, and `getPlayerCurrentGame` answers `current`. -/
def connectAnswers (viaButton : Bool) (current : Nat) : List Event :=
  [.answer (.connect viaButton) (.accounts (some "0xabc")),
   .answer (.balWallet (.checkExisting (some "0xabc") viaButton))
     (.balance "0xabc" (5 * 10 ^ 18)),
   .answer (.balContract (getWalletBalance "0xabc" (5 * 10 ^ 18))
     (.checkExisting (some "0xabc") viaButton)) (.uint (10 ^ 20)),
   .answer (.existingId (some "0xabc") viaButton) (.uint current)]

/-- The states the component can be in. -/
def Reachable (w : Controller) : Prop := ∃ events, run Controller.initial events = some w

/-- The edges of the state machine the specification gives. -/
def specEdge : GameStatus → GameStatus → Bool
  | .idle, .waiting => true
  | .waiting, .playing => true
  | .playing, .crashed => true
  | .playing, .won => true
  | .crashed, .idle => true
  | .won, .idle => true
  | _, _ => false

/-- The status values each event writes in the source: `resetGame` writes `idle`; the
countdown callback `playing`; `handleStartGame` writes `waiting` after `startGame()` and
`idle` in its `catch`; the status callback writes `crashed`; `handleWithdraw` writes
`won`; `checkExistingGame` writes `playing`. -/
def writesStatus : Event → GameStatus → Bool
  | .clickReset, .idle => true
  | .tick _, .playing => true
  | .answer .startBalance _, .idle => true
  | .answer .startTx _, .waiting => true
  | .answer .startTx _, .idle => true
  | .answer (.statusInfo _) _, .crashed => true
  | .answer (.withdrawTx _) _, .won => true
  | .answer (.existingInfo _ _) _, .playing => true
  | _, _ => false

/-- The mount effect alone finds the running session 7 and resumes it. -/
def resumeEvents : List Event :=
  connectAnswers false 7 ++ [.answer (.existingInfo 7 false) (.gameInfo activeInfo)]

/-- The connect button is clicked while the connection of the mount effect is still
awaited, and both paths resume the running session 7: the first call of `startGameLoop`
makes the intervals 1 and 2, the second the intervals 3 and 4. -/
def resumedTwiceEvents : List Event :=
  [.clickConnect] ++ connectAnswers false 7 ++
  [.answer (.existingInfo 7 false) (.gameInfo activeInfo)] ++
  connectAnswers true 7 ++
  [.answer (.existingInfo 7 true) (.gameInfo activeInfo)]

theorem log2Fuel_le (fuel n : Nat) (hn : n ≠ 0) : 2 ^ log2Fuel fuel n ≤ n := by
  induction fuel generalizing n with
  | zero => simpa [log2Fuel] using Nat.pos_of_ne_zero hn
  | succ fuel ih =>
    unfold log2Fuel
    split_ifs with h
    · simpa using Nat.pos_of_ne_zero hn
    · have h2 : n / 2 ≠ 0 := by omega
      have := ih (n / 2) h2
      rw [Nat.pow_succ]
      omega

/-- The nearest integer to `n / d` is within half of `d` when scaled back. -/
theorem roundHalfEven_near (n d : Nat) (hd : 0 < d) :
    2 * (roundHalfEven n d * d) ≤ 2 * n + d ∧ 2 * n ≤ 2 * (roundHalfEven n d * d) + d := by
  have hdm := Nat.div_add_mod n d
  have hr := Nat.mod_lt n hd
  have hq : (n / d + 1) * d = d * (n / d) + d := by ring
  have hq0 : n / d * d = d * (n / d) := by ring
  unfold roundHalfEven
  simp only []
  split_ifs <;> simp only [hq, hq0] <;> omega

/-- Below `100 * 2^46` the binary64 grid around `m / 100` is finer than `2^-7`. -/
theorem gridExponent_hundredths (m : Nat) (hm : m < 100 * 2 ^ 46) :
    gridExponent m 100 ≤ 1067 := by
  have h6 : floorLog2 100 = 6 := by decide
  unfold gridExponent
  simp only [h6]
  by_cases h0 : m = 0
  · subst h0
    decide
  · have hl : 2 ^ floorLog2 m ≤ m := log2Fuel_le m m h0
    have hlt : floorLog2 m < 53 := by
      apply (Nat.pow_lt_pow_iff_right (by norm_num : 1 < 2)).mp
      calc 2 ^ floorLog2 m ≤ m := hl
        _ < 2 ^ 53 := by norm_num at hm ⊢; omega
    split_ifs with hi
    · have h52 : floorLog2 m ≠ 52 := by
        intro h
        rw [h] at hi
        norm_num at hi hm
        omega
      omega
    · omega

/-- A value `u / 2^1074` within `50 * B / 2^1074` of `m / 100`, with `B ≤ 2^1067`, has `m`
as its nearest hundredth. -/
theorem nearest_hundredth (m u B : Nat) (hB : 0 < B) (hsmall : 64 * B ≤ 2 ^ 1073)
    (hnear : 2 * (u * 100) ≤ 2 * (m * 2 ^ 1074) + 100 * B ∧
      2 * (m * 2 ^ 1074) ≤ 2 * (u * 100) + 100 * B) :
    u * 100 < (m + 1) * 2 ^ 1074 ∧ (u * 10 ^ 2 + 2 ^ 1073) / 2 ^ 1074 = m := by
  have hU : (2 : Nat) ^ 1074 = 2 * 2 ^ 1073 := by rw [← Nat.pow_succ']
  have e1 : (m + 1) * (2 * 2 ^ 1073) = m * (2 * 2 ^ 1073) + 2 * 2 ^ 1073 := by ring
  have e2 : u * 10 ^ 2 = u * 100 := by norm_num
  rw [hU] at hnear ⊢
  constructor
  · rw [e1]
    generalize (2 : Nat) ^ 1073 = V at hnear hsmall ⊢
    generalize m * (2 * V) = Y at hnear ⊢
    omega
  · apply Nat.div_eq_of_lt_le
    · rw [e2]
      generalize (2 : Nat) ^ 1073 = V at hnear hsmall ⊢
      generalize m * (2 * V) = Y at hnear ⊢
      omega
    · rw [e2, e1]
      generalize (2 : Nat) ^ 1073 = V at hnear hsmall ⊢
      generalize m * (2 * V) = Y at hnear ⊢
      omega

/-- Dividing a multiplier below `100 * 2^46` by 100 gives a finite number below `10^21`
whose nearest hundredth is the multiplier itself. -/
theorem divNumber_hundredths (m : Nat) (hm : m < 100 * 2 ^ 46) :
    ∃ u, divNumber m 100 = .finite u ∧ u < 10 ^ 21 * unitsPerOne ∧
      (u * 10 ^ 2 + unitsPerOne / 2) / unitsPerOne = m := by
  have hE := gridExponent_hundredths m hm
  have hnear := roundHalfEven_near (m * 2 ^ 1074) (100 * 2 ^ gridExponent m 100) (by positivity)
  have hpow : (2 : Nat) ^ 1073 = 2 ^ (1073 - gridExponent m 100) * 2 ^ gridExponent m 100 := by
    rw [← Nat.pow_add]
    congr 1
    omega
  have h64 : 2 ^ 6 ≤ 2 ^ (1073 - gridExponent m 100) :=
    Nat.pow_le_pow_right (by norm_num) (by omega)
  have hsmall : 64 * 2 ^ gridExponent m 100 ≤ 2 ^ 1073 := by
    rw [hpow]
    exact Nat.mul_le_mul_right _ h64
  have hU : (2 : Nat) ^ 1074 = 2 * 2 ^ 1073 := by rw [← Nat.pow_succ']
  have hhalf : unitsPerOne / 2 = 2 ^ 1073 := by
    unfold unitsPerOne
    rw [hU]
    omega
  have hX : roundHalfEven (m * 2 ^ 1074) (100 * 2 ^ gridExponent m 100) *
        (100 * 2 ^ gridExponent m 100) =
      roundHalfEven (m * 2 ^ 1074) (100 * 2 ^ gridExponent m 100) *
        2 ^ gridExponent m 100 * 100 := by ring
  rw [hX] at hnear
  obtain ⟨hu, hn⟩ := nearest_hundredth m _ _ (by positivity) hsmall hnear
  have hub : roundHalfEven (m * 2 ^ 1074) (100 * 2 ^ gridExponent m 100) *
      2 ^ gridExponent m 100 < 2 ^ 46 * 2 ^ 1074 := by
    have h1 : (m + 1) * 2 ^ 1074 ≤ 100 * 2 ^ 46 * 2 ^ 1074 := Nat.mul_le_mul_right _ hm
    have e2 : 100 * 2 ^ 46 * 2 ^ 1074 = 2 ^ 46 * 2 ^ 1074 * 100 := by ring
    rw [e2] at h1
    exact Nat.lt_of_mul_lt_mul_right (lt_of_lt_of_le hu h1)
  refine ⟨roundHalfEven (m * 2 ^ 1074) (100 * 2 ^ gridExponent m 100) * 2 ^ gridExponent m 100,
    ?_, ?_, ?_⟩
  · unfold divNumber toBinary64
    simp only []
    rw [if_neg]
    intro hbig
    have h2 : (2 : Nat) ^ 46 * 2 ^ 1074 ≤ 2 ^ 2098 := by
      rw [← Nat.pow_add]
      exact Nat.pow_le_pow_right (by norm_num) (by norm_num)
    exact absurd (lt_of_lt_of_le hub h2) (not_lt.mpr hbig)
  · unfold unitsPerOne
    have h46 : (2 : Nat) ^ 46 ≤ 10 ^ 21 := by norm_num
    exact lt_of_lt_of_le hub (Nat.mul_le_mul_right _ h46)
  · rw [hhalf]
    exact hn

theorem decimalAux_append (fuel n : Nat) (acc : List Char) :
    decimalAux fuel n acc = decimalAux fuel n [] ++ acc := by
  induction fuel generalizing n acc with
  | zero => simp [decimalAux]
  | succ fuel ih =>
    unfold decimalAux
    split_ifs
    · simp
    · rw [ih (n / 10) (digitChar (n % 10) :: acc), ih (n / 10) [digitChar (n % 10)]]
      simp

theorem decimalAux_fuel (f1 f2 n : Nat) (acc : List Char) (h1 : n < f1) (h2 : n < f2) :
    decimalAux f1 n acc = decimalAux f2 n acc := by
  induction f1 generalizing f2 n acc with
  | zero => omega
  | succ f1 ih =>
    cases f2 with
    | zero => omega
    | succ f2 =>
      unfold decimalAux
      split_ifs with h
      · rfl
      · exact ih f2 (n / 10) _ (by omega) (by omega)

theorem decimalDigits_small (n : Nat) (h : n < 10) : decimalDigits n = [digitChar n] := by
  simp [decimalDigits, decimalAux, h]

/-- The digits of `n ≥ 10` are those of `n / 10` followed by the last digit. -/
theorem decimalDigits_step (n : Nat) (h : 10 ≤ n) :
    decimalDigits n = decimalDigits (n / 10) ++ [digitChar (n % 10)] := by
  have hn : ¬ n < 10 := by omega
  unfold decimalDigits
  rw [decimalAux]
  simp only [hn, if_false]
  rw [decimalAux_append, decimalAux_fuel n (n / 10 + 1) (n / 10) [] (by omega) (by omega)]

theorem decimalDigits_ne_nil (n : Nat) : decimalDigits n ≠ [] := by
  by_cases h : n < 10
  · simp [decimalDigits_small n h]
  · rw [decimalDigits_step n (by omega)]
    simp

/-- Writing `n` with at least three digits and a point two places from the right gives
the digits of `n / 100`, the point, and the two digits of `n % 100`. -/
theorem fixed_two_digits (n : Nat) :
    (padZeros (2 + 1) (decimalDigits n)).take ((padZeros (2 + 1) (decimalDigits n)).length - 2)
        ++ '.' :: (padZeros (2 + 1) (decimalDigits n)).drop
          ((padZeros (2 + 1) (decimalDigits n)).length - 2) =
      decimalDigits (n / 100) ++ ['.', digitChar (n % 100 / 10), digitChar (n % 10)] := by
  by_cases h10 : n < 10
  · have e0 : n / 100 = 0 := by omega
    have e1 : n % 100 / 10 = 0 := by omega
    have e2 : n % 10 = n := by omega
    rw [decimalDigits_small n h10, e0, e1, e2]
    rfl
  · by_cases h100 : n < 100
    · have e0 : n / 100 = 0 := by omega
      have e1 : n % 100 / 10 = n / 10 := by omega
      rw [decimalDigits_step n (by omega), decimalDigits_small (n / 10) (by omega), e0, e1]
      rfl
    · have e1 : n % 100 / 10 = n / 10 % 10 := by omega
      have e2 : n / 10 / 10 = n / 100 := by omega
      rw [decimalDigits_step n (by omega), decimalDigits_step (n / 10) (by omega), e1, e2]
      have hne := decimalDigits_ne_nil (n / 100)
      have hlen : 0 < (decimalDigits (n / 100)).length := List.length_pos.mpr hne
      generalize decimalDigits (n / 100) = ds at hlen ⊢
      have hpad : padZeros (2 + 1) (ds ++ [digitChar (n / 10 % 10)] ++ [digitChar (n % 10)]) =
          ds ++ [digitChar (n / 10 % 10), digitChar (n % 10)] := by
        unfold padZeros
        have : 2 + 1 - (ds ++ [digitChar (n / 10 % 10)] ++ [digitChar (n % 10)]).length = 0 := by
          simp
          omega
        rw [this]
        simp
      rw [hpad]
      have hl : (ds ++ [digitChar (n / 10 % 10), digitChar (n % 10)]).length - 2 = ds.length := by
        simp
      rw [hl, List.take_left, List.drop_left]

/-- C10 (amended): for every multiplier `m` below `100 * 2^46`, `formatMultiplier m` is
the digits of `m / 100`, a point, the two digits of `m % 100`, and "x". -/
theorem formatMultiplier_hundredths (m : Nat) (hm : m < 100 * 2 ^ 46) :
    formatMultiplier m = renderHundredths m := by
  obtain ⟨u, hu, hlt, hn⟩ := divNumber_hundredths m hm
  unfold formatMultiplier renderHundredths
  rw [hu]
  unfold toFixed
  simp only []
  rw [if_neg (not_le.mpr hlt), hn, fixed_two_digits m]

theorem formatMultiplier_hundredths_witness :
    formatMultiplier 250 = "2.50x" ∧ formatMultiplier 100 = "1.00x" ∧
      formatMultiplier 5 = "0.05x" :=
  ⟨(formatMultiplier_hundredths 250 (by norm_num)).trans (by decide),
   (formatMultiplier_hundredths 100 (by norm_num)).trans (by decide),
   (formatMultiplier_hundredths 5 (by norm_num)).trans (by decide)⟩

/-- C10 (counterexample): the multiplier 7036874417766401, an exact binary64 integer, is
shown as "70368744177664.02x", not with the digits 01 of its remainder modulo 100. -/
theorem formatMultiplier_large :
    formatMultiplier 7036874417766401 = "70368744177664.02x" ∧
      renderHundredths 7036874417766401 = "70368744177664.01x" ∧
      numberOfBigInt 7036874417766401 = 7036874417766401 ∧
      formatMultiplier 7036874417766401 ≠ renderHundredths 7036874417766401 := by
  decide
/-! ## Timers -/

theorem deactivate_length (i : Nat) (ts : List Timer) :
    (deactivate i ts).length = ts.length := by
  induction ts generalizing i with
  | nil => cases i <;> simp [deactivate]
  | cons t ts ih => cases i <;> simp [deactivate, ih]

theorem cancel_length (ts : List Timer) (h : Nat) : (cancel ts h).length = ts.length := by
  cases h <;> simp [cancel, deactivate_length]

theorem timerAt_deactivate_self (i : Nat) (ts : List Timer) :
    timerAt (deactivate i ts) (i + 1) = none := by
  induction ts generalizing i with
  | nil => simp [deactivate, timerAt]
  | cons t ts ih =>
    cases i with
    | zero => simp [deactivate, timerAt]
    | succ i => simpa [deactivate, timerAt] using ih i

theorem timerAt_deactivate_none (i j : Nat) (ts : List Timer) (h : timerAt ts (j + 1) = none) :
    timerAt (deactivate i ts) (j + 1) = none := by
  induction ts generalizing i j with
  | nil => simp [deactivate, timerAt]
  | cons t ts ih =>
    cases i with
    | zero =>
      cases j with
      | zero => simp [deactivate, timerAt]
      | succ j => simpa [deactivate, timerAt] using h
    | succ i =>
      cases j with
      | zero => simpa [deactivate, timerAt] using h
      | succ j =>
        have h2 : timerAt ts (j + 1) = none := by simpa [timerAt] using h
        simpa [deactivate, timerAt] using ih i j h2

/-- A cancelled interval is inactive. -/
theorem timerAt_cancel_self (ts : List Timer) (h : Nat) : timerAt (cancel ts h) h = none := by
  cases h with
  | zero => rfl
  | succ i => exact timerAt_deactivate_self i ts

/-- Cancelling never activates an interval. -/
theorem timerAt_cancel_none (ts : List Timer) (h k : Nat) (hk : timerAt ts k = none) :
    timerAt (cancel ts h) k = none := by
  cases k with
  | zero => rfl
  | succ j =>
    cases h with
    | zero => exact hk
    | succ i => exact timerAt_deactivate_none i j ts hk

/-- The table after `if (ref.current) clearInterval(ref.current)`. -/
theorem clearRef_eq (ref : Option Nat) (w : Controller) :
    clearRef ref w = { w with timers := cancel w.timers (ref.getD 0) } := by
  cases ref with
  | none => rfl
  | some h =>
    cases h with
    | zero => rfl
    | succ i => simp [clearRef, clearInterval]

/-- The handle of a new interval is active with the given callback. -/
theorem timerAt_append_new (ts : List Timer) (kind : TimerKind) :
    timerAt (ts ++ [{ kind := kind, active := true }]) (ts.length + 1) = some kind := by
  simp [timerAt]

/-- An interval added to the table leaves the earlier handles as they are. -/
theorem timerAt_append_old (ts : List Timer) (t : Timer) (h : Nat) (hh : h ≤ ts.length) :
    timerAt (ts ++ [t]) h = timerAt ts h := by
  cases h with
  | zero => rfl
  | succ i =>
    have : i < ts.length := hh
    simp [timerAt, List.getElem?_append_left this]

/-- The first of two intervals added to the table gets the next handle. -/
theorem timerAt_append_first (ts : List Timer) (a b : Timer) (ha : a.active = true) :
    timerAt (ts ++ [a, b]) (ts.length + 1) = some a.kind := by
  have h : (ts ++ [a, b])[ts.length]? = some a := by
    rw [List.getElem?_append_right (le_refl _)]
    simp
  simp only [timerAt, h, ha]
  rfl

/-- The second of two intervals added to the table gets the handle after the next. -/
theorem timerAt_append_second (ts : List Timer) (a b : Timer) (hb : b.active = true) :
    timerAt (ts ++ [a, b]) (ts.length + 2) = some b.kind := by
  have h : (ts ++ [a, b])[ts.length + 1]? = some b := by
    rw [List.getElem?_append_right (Nat.le_succ _)]
    simp
  simp only [timerAt, h, hb]
  rfl
/-! ## The handlers, one call at a time -/

theorem handleWithdraw_eq (w : Controller) (g : Nat) (hg : w.gameId = some g) (h0 : g ≠ 0) :
    handleWithdraw w =
      { w with isLoading := true, error := none, pending := .withdrawTx g :: w.pending } := by
  obtain ⟨k, rfl⟩ := Nat.exists_eq_succ_of_ne_zero h0
  simp [handleWithdraw, hg]

theorem resume_head (c : Cont) (r : Response) (w : Controller) (ps : List Cont)
    (h : w.pending = c :: ps) :
    resume c r w = continueWith c r { w with pending := ps } := by
  simp [resume, h]

/-- The `catch` path of `handleWithdraw` for a session id that is not 0. -/
theorem handleWithdraw_failure_of_ne_zero (w : Controller) (g : Nat) (m : String)
    (hg : w.gameId = some g) (h0 : g ≠ 0) :
    ∃ w1, resume (.withdrawTx g) (.failure m) (handleWithdraw w) = some w1 ∧
      w1.error = some (if m = "" then "Erreur lors du retrait" else m) ∧
      w1.gameStatus = w.gameStatus ∧ w1.gameId = w.gameId ∧ w1.multiplier = w.multiplier ∧
      w1.lastPayout = w.lastPayout ∧ w1.timers = w.timers ∧
      w1.gameTimerRef = w.gameTimerRef ∧ w1.statusCheckRef = w.statusCheckRef ∧
      w1.isLoading = false ∧ w1.pending = w.pending := by
  rw [handleWithdraw_eq w g hg h0, resume_head _ _ _ w.pending rfl]
  simp [continueWith, withdrawFailed, messageOr]

/-- C9: with session id `g`, either `g` is 0 and `handleWithdraw` returns at once without
calling `withdrawFromGame`, or the call is made and, when it fails with message `m`,
`handleWithdraw` shows `m` (or "Erreur lors du retrait" when `m` is empty), leaves
status, session id, multiplier and last payout as they were, cancels no timer, ends with
`isLoading` false, and awaits nothing further. -/
theorem handleWithdraw_failure (w : Controller) (g : Nat) (m : String)
    (hg : w.gameId = some g) :
    (g = 0 ∧ handleWithdraw w = w) ∨
    ∃ w1, resume (.withdrawTx g) (.failure m) (handleWithdraw w) = some w1 ∧
      w1.error = some (if m = "" then "Erreur lors du retrait" else m) ∧
      w1.gameStatus = w.gameStatus ∧ w1.gameId = w.gameId ∧ w1.multiplier = w.multiplier ∧
      w1.lastPayout = w.lastPayout ∧ w1.timers = w.timers ∧
      w1.gameTimerRef = w.gameTimerRef ∧ w1.statusCheckRef = w.statusCheckRef ∧
      w1.isLoading = false ∧ w1.pending = w.pending := by
  by_cases h0 : g = 0
  · subst h0
    exact Or.inl ⟨rfl, by simp [handleWithdraw, hg]⟩
  · exact Or.inr (handleWithdraw_failure_of_ne_zero w g m hg h0)

/-- The failed withdrawal at session 7, with an error that has no message. -/
theorem handleWithdraw_failure_witness :
    ∃ w1, resume (.withdrawTx 7) (.failure "")
        (handleWithdraw { Controller.initial with gameId := some 7, gameStatus := .playing })
          = some w1 ∧
      w1.error = some "Erreur lors du retrait" ∧ w1.gameStatus = .playing ∧
      w1.isLoading = false :=
  have h := handleWithdraw_failure
    { Controller.initial with gameId := some 7, gameStatus := .playing } 7 "" rfl
  match h with
  | .inl ⟨h0, _⟩ => absurd h0 (by decide)
  | .inr ⟨w1, h1, h2, h3, _, _, _, _, _, _, h4, _⟩ => ⟨w1, h1, h2, h3, h4⟩

/-- The answers to a refresh started by `handleStartGame` or `handleWithdraw` change the
two displayed balances at most, and clear the loading flag. -/
theorem refresh_finishLoading (o : Refresh) (w : Controller) (ps : List Cont)
    (h : w.pending = .balWallet .finishLoading :: ps) :
    ∃ wb cb, resumeAll w (o.answers .finishLoading) =
      some { w with walletBalance := wb, contractBalance := cb, isLoading := false,
                    pending := ps } := by
  cases o with
  | walletFailed m =>
    exact ⟨w.walletBalance, w.contractBalance, by
      simp [Refresh.answers, resumeAll, resume, h, continueWith, afterBalances]⟩
  | contractFailed a wei m =>
    exact ⟨w.walletBalance, w.contractBalance, by
      simp [Refresh.answers, resumeAll, resume, h, continueWith, afterBalances]⟩
  | refreshed a wei c =>
    exact ⟨toFixed (parseFloat (getWalletBalance a wei).balance) 4,
      toFixed (parseFloat (getContractBalance c)) 4, by
      simp [Refresh.answers, resumeAll, resume, h, continueWith, afterBalances]⟩

/-- The success path of `handleWithdraw` for a session id that is not 0. -/
theorem handleWithdraw_success_of_ne_zero (w : Controller) (g : Nat) (logs : List ParsedLog)
    (result : WithdrawResult) (o : Refresh)
    (hg : w.gameId = some g) (h0 : g ≠ 0) (hr : withdrawFromGame logs = some result) :
    ∃ w1 w2, resume (.withdrawTx g) (.receipt logs) (handleWithdraw w) = some w1 ∧
      resumeAll w1 (o.answers .finishLoading) = some w2 ∧
      w1.gameStatus = .won ∧ w1.multiplier = result.multiplier ∧
      w1.lastPayout = some result.payout ∧
      (∀ h, w.gameTimerRef = some h → activeTimer w1 h = none) ∧
      (∀ h, w.statusCheckRef = some h → activeTimer w1 h = none) ∧
      w2.gameStatus = .won ∧ w2.multiplier = result.multiplier ∧
      w2.lastPayout = some result.payout ∧ w2.timers = w1.timers ∧
      w2.isLoading = false ∧ w2.error = none ∧ w2.pending = w.pending := by
  rw [handleWithdraw_eq w g hg h0, resume_head _ _ _ w.pending rfl]
  simp only [continueWith, hr, clearRef_eq, updateBalances]
  obtain ⟨wb, cb, hrun⟩ := refresh_finishLoading o
    { w with isLoading := true, error := none, lastPayout := some result.payout,
             gameStatus := .won, multiplier := result.multiplier,
             timers := cancel (cancel w.timers (w.gameTimerRef.getD 0))
               (w.statusCheckRef.getD 0),
             pending := .balWallet .finishLoading :: w.pending } w.pending rfl
  refine ⟨_, _, rfl, hrun, rfl, rfl, rfl, ?_, ?_, rfl, rfl, rfl, rfl, rfl, rfl, rfl⟩
  · intro h hh
    simp only [activeTimer, hh, Option.getD_some]
    exact timerAt_cancel_none _ _ _ (timerAt_cancel_self _ _)
  · intro h hh
    simp only [activeTimer, hh, Option.getD_some]
    exact timerAt_cancel_self _ _


/-- C6: with session id `g`, either `g` is 0 and `handleWithdraw` returns at once without
calling `withdrawFromGame`, or the call is made and, when it returns a result,
`handleWithdraw` sets status `won`, the multiplier and the last payout to those of the
result, and cancels the intervals held in `gameTimerRef` and `statusCheckRef`; and
however the balance refresh that follows goes, it ends with `isLoading` false, `error`
null, and the same status, multiplier, payout and timers. -/
theorem handleWithdraw_success (w : Controller) (g : Nat) (logs : List ParsedLog)
    (result : WithdrawResult) (o : Refresh)
    (hg : w.gameId = some g) (hr : withdrawFromGame logs = some result) :
    (g = 0 ∧ handleWithdraw w = w) ∨
    ∃ w1 w2, resume (.withdrawTx g) (.receipt logs) (handleWithdraw w) = some w1 ∧
      resumeAll w1 (o.answers .finishLoading) = some w2 ∧
      w1.gameStatus = .won ∧ w1.multiplier = result.multiplier ∧
      w1.lastPayout = some result.payout ∧
      (∀ h, w.gameTimerRef = some h → activeTimer w1 h = none) ∧
      (∀ h, w.statusCheckRef = some h → activeTimer w1 h = none) ∧
      w2.gameStatus = .won ∧ w2.multiplier = result.multiplier ∧
      w2.lastPayout = some result.payout ∧ w2.timers = w1.timers ∧
      w2.isLoading = false ∧ w2.error = none ∧ w2.pending = w.pending := by
  by_cases h0 : g = 0
  · subst h0
    exact Or.inl ⟨rfl, by simp [handleWithdraw, hg]⟩
  · exact Or.inr (handleWithdraw_success_of_ne_zero w g logs result o hg h0 hr)

/-- C7: when the balance check passes and `startGame` returns `n`, `handleStartGame`
creates the session: id `n`, status `waiting`, multiplier 100, countdown 3, no payout, no
error, and an active countdown interval held in `countdownTimerRef`; and however the
balance refresh that follows goes, all of this still holds and `isLoading` is false.
The countdown handle is a new one: no interval had it before. -/
theorem handleStartGame_success (w : Controller) (address : String) (wei : Nat)
    (logs : List ParsedLog) (n : Nat) (o : Refresh)
    (hb : (parseFloat (getWalletBalance address wei).balance).ltNat 1 = false)
    (hs : startGame logs = .ok n) :
    ∃ w1 w2,
      resumeAll (handleStartGame w)
        [(.startBalance, .balance address wei), (.startTx, .receipt logs)] = some w1 ∧
      resumeAll w1 (o.answers .finishLoading) = some w2 ∧
      (w1.gameId = some n ∧ w1.gameStatus = .waiting ∧ w1.multiplier = 100 ∧
        w1.countdown = 3 ∧ w1.lastPayout = none ∧ w1.error = none ∧
        w1.countdownTimerRef = some (newHandle w) ∧
        activeTimer w (newHandle w) = none ∧
        activeTimer w1 (newHandle w) = some (.countdown n)) ∧
      (w2.gameId = some n ∧ w2.gameStatus = .waiting ∧ w2.multiplier = 100 ∧
        w2.countdown = 3 ∧ w2.lastPayout = none ∧ w2.error = none ∧
        w2.countdownTimerRef = some (newHandle w) ∧
        activeTimer w2 (newHandle w) = some (.countdown n) ∧
        w2.isLoading = false ∧ w2.pending = w.pending) := by
  obtain ⟨wb, cb, hrun⟩ := refresh_finishLoading o
    { w with isLoading := true, error := none, lastPayout := none, gameId := some n,
             gameStatus := .waiting, multiplier := 100, countdown := 3,
             timers := w.timers ++ [{ kind := .countdown n, active := true }],
             countdownTimerRef := some (newHandle w),
             pending := .balWallet .finishLoading :: w.pending } w.pending rfl
  refine ⟨_, _, ?_, hrun, ?_, ?_⟩
  · simp [resumeAll, resume, handleStartGame, continueWith, hb, hs, setInterval,
      updateBalances, newHandle]
  · simp [activeTimer, newHandle, timerAt_append_new, timerAt]
  · simp [activeTimer, newHandle, timerAt_append_new]

theorem handleStartGame_success_witness :
    ∃ w1 w2,
      resumeAll (handleStartGame Controller.initial)
        [(.startBalance, .balance "0xabc" (2 * 10 ^ 18)),
         (.startTx, .receipt [.gameStarted 7 "0xabc" (10 ^ 18)])] = some w1 ∧
      resumeAll w1 ((Refresh.walletFailed "timeout").answers .finishLoading) = some w2 ∧
      w1.gameStatus = .waiting ∧ w2.gameId = some 7 ∧ w2.countdown = 3 ∧
      w2.isLoading = false :=
  have h := handleStartGame_success Controller.initial "0xabc" (2 * 10 ^ 18)
    [.gameStarted 7 "0xabc" (10 ^ 18)] 7 (.walletFailed "timeout") (by decide) (by rfl)
  match h with
  | ⟨w1, w2, h1, h2, ⟨_, h3, _⟩, ⟨h4, _, _, h5, _, _, _, _, h6, _⟩⟩ =>
    ⟨w1, w2, h1, h2, h3, h4, h5, h6⟩

/-- C8: when `getWalletBalance` fails with message `m`, or the balance check passes and
`startGame` fails with message `m`, `handleStartGame` creates no session (session id,
countdown, timers and the countdown handle are untouched), shows `m` (or "Erreur lors du
démarrage du jeu" when `m` is empty), sets status `idle` and `isLoading` false, and
awaits nothing further: no call is made again. -/
theorem handleStartGame_failure (w : Controller) (m : String)
    (answers : List (Cont × Response))
    (h : answers = [(.startBalance, .failure m)] ∨
      ∃ address wei r,
        (parseFloat (getWalletBalance address wei).balance).ltNat 1 = false ∧
        (r = .failure m ∨ ∃ logs, r = .receipt logs ∧ startGame logs = .error m) ∧
        answers = [(.startBalance, .balance address wei), (.startTx, r)]) :
    ∃ w1, resumeAll (handleStartGame w) answers = some w1 ∧
      w1.gameId = w.gameId ∧ w1.countdown = w.countdown ∧ w1.timers = w.timers ∧
      w1.countdownTimerRef = w.countdownTimerRef ∧
      w1.error = some (if m = "" then "Erreur lors du démarrage du jeu" else m) ∧
      w1.gameStatus = .idle ∧ w1.isLoading = false ∧ w1.pending = w.pending := by
  rcases h with rfl | ⟨address, wei, r, hb, hr, rfl⟩
  · simp [resumeAll, resume, handleStartGame, continueWith, startFailed, messageOr]
  · rcases hr with rfl | ⟨logs, rfl, hs⟩
    · simp [resumeAll, resume, handleStartGame, continueWith, startFailed, messageOr, hb]
    · simp [resumeAll, resume, handleStartGame, continueWith, startFailed, messageOr, hb, hs]

theorem handleStartGame_failure_witness :
    ∃ w1, resumeAll (handleStartGame Controller.initial)
        [(.startBalance, .balance "0xabc" (2 * 10 ^ 18)),
         (.startTx, .receipt [.fundsDeposited "0xabc" 1])] = some w1 ∧
      w1.gameId = none ∧ w1.countdown = 0 ∧ w1.timers = [] ∧
      w1.countdownTimerRef = none ∧
      w1.error = some "Impossible de récupérer l'ID du jeu" ∧
      w1.gameStatus = .idle ∧ w1.isLoading = false ∧ w1.pending = [.connect false] :=
  handleStartGame_failure Controller.initial "Impossible de récupérer l'ID du jeu" _
    (Or.inr ⟨"0xabc", 2 * 10 ^ 18, .receipt [.fundsDeposited "0xabc" 1], by decide,
      Or.inr ⟨_, rfl, by rfl⟩, rfl⟩)

theorem handleWithdraw_success_witness :
    ∃ w1 w2, resume (.withdrawTx 7) (.receipt [.gameWithdrawn 7 "0xabc" 180 (18 * 10 ^ 17)])
        (handleWithdraw { Controller.initial with gameId := some 7, gameStatus := .playing })
          = some w1 ∧
      resumeAll w1 ((Refresh.refreshed "0xabc" (2 * 10 ^ 18) (10 ^ 20)).answers .finishLoading)
        = some w2 ∧
      w2.gameStatus = .won ∧ w2.multiplier = 180 ∧ w2.lastPayout = some "1.8" ∧
      w2.isLoading = false ∧ w2.error = none :=
  have h := handleWithdraw_success
    { Controller.initial with gameId := some 7, gameStatus := .playing } 7
    [.gameWithdrawn 7 "0xabc" 180 (18 * 10 ^ 17)] { multiplier := 180, payout := "1.8" }
    (.refreshed "0xabc" (2 * 10 ^ 18) (10 ^ 20)) rfl (by decide)
  match h with
  | .inl ⟨h0, _⟩ => absurd h0 (by decide)
  | .inr ⟨w1, w2, h1, h2, _, _, _, _, _, h3, h4, h5, _, h6, h7, _⟩ =>
    ⟨w1, w2, h1, h2, h3, h4, h5, h6, h7⟩

/-- C3: after a successful start (countdown 3, status `waiting`, countdown interval with
handle `h`), the first tick of `h` leaves status `waiting` and countdown 2, the second
leaves status `waiting` and countdown 1, the third sets countdown 0, cancels `h`, sets
status `playing` and starts the game loop for the new id once (one multiplier interval
and one status interval are added, active and held in the two handles); after that `h`
cannot fire. -/
theorem countdown_three_ticks (w0 : Controller) (logs : List ParsedLog) (n : Nat)
    (hp : Cont.startTx ∈ w0.pending) (hs : startGame logs = .ok n) :
    ∃ w1 w2 w3 w4,
      resume .startTx (.receipt logs) w0 = some w1 ∧
      w1.countdown = 3 ∧ w1.gameStatus = .waiting ∧
      w1.countdownTimerRef = some (newHandle w0) ∧
      fire (newHandle w0) w1 = some w2 ∧
      w2.gameStatus = .waiting ∧ w2.countdown = 2 ∧ w2.timers = w1.timers ∧
      fire (newHandle w0) w2 = some w3 ∧
      w3.gameStatus = .waiting ∧ w3.countdown = 1 ∧ w3.timers = w1.timers ∧
      fire (newHandle w0) w3 = some w4 ∧
      w4.gameStatus = .playing ∧ w4.countdown = 0 ∧
      w4.timers = cancel w1.timers (newHandle w0) ++
        [{ kind := .multiplier n, active := true }, { kind := .statusCheck n, active := true }] ∧
      activeTimer w4 (newHandle w0) = none ∧
      w4.gameTimerRef = some (newHandle w0 + 1) ∧
      activeTimer w4 (newHandle w0 + 1) = some (.multiplier n) ∧
      w4.statusCheckRef = some (newHandle w0 + 2) ∧
      activeTimer w4 (newHandle w0 + 2) = some (.statusCheck n) ∧
      fire (newHandle w0) w4 = none := by
  have hnew : timerAt (w0.timers ++ [{ kind := .countdown n, active := true }])
      (w0.timers.length + 1) = some (.countdown n) := timerAt_append_new _ _
  have hlen : (cancel (w0.timers ++ [{ kind := TimerKind.countdown n, active := true }])
      (w0.timers.length + 1)).length = w0.timers.length + 1 := by
    simp [cancel_length]
  have hoff : timerAt
      (cancel (w0.timers ++ [{ kind := .countdown n, active := true }]) (w0.timers.length + 1) ++
        [{ kind := .multiplier n, active := true }, { kind := .statusCheck n, active := true }])
      (w0.timers.length + 1) = none := by
    have h1 := timerAt_cancel_self
      (w0.timers ++ [{ kind := TimerKind.countdown n, active := true }]) (w0.timers.length + 1)
    have h2 := timerAt_append_old _ { kind := TimerKind.multiplier n, active := true }
      (w0.timers.length + 1) (le_of_eq hlen.symm)
    have h3 := timerAt_append_old
      (cancel (w0.timers ++ [{ kind := TimerKind.countdown n, active := true }])
        (w0.timers.length + 1) ++ [{ kind := TimerKind.multiplier n, active := true }])
      { kind := TimerKind.statusCheck n, active := true } (w0.timers.length + 1)
      (by simp [hlen])
    rw [List.append_assoc] at h3
    rw [← h1, ← h2, ← h3]
    rfl
  refine ⟨
    { w0 with gameId := some n, gameStatus := .waiting, multiplier := 100, countdown := 3,
              timers := w0.timers ++ [{ kind := .countdown n, active := true }],
              countdownTimerRef := some (w0.timers.length + 1),
              pending := .balWallet .finishLoading :: w0.pending.erase .startTx },
    { w0 with gameId := some n, gameStatus := .waiting, multiplier := 100, countdown := 2,
              timers := w0.timers ++ [{ kind := .countdown n, active := true }],
              countdownTimerRef := some (w0.timers.length + 1),
              pending := .balWallet .finishLoading :: w0.pending.erase .startTx },
    { w0 with gameId := some n, gameStatus := .waiting, multiplier := 100, countdown := 1,
              timers := w0.timers ++ [{ kind := .countdown n, active := true }],
              countdownTimerRef := some (w0.timers.length + 1),
              pending := .balWallet .finishLoading :: w0.pending.erase .startTx },
    { w0 with gameId := some n, gameStatus := .playing, multiplier := 100, countdown := 0,
              timers := (cancel (w0.timers ++ [{ kind := .countdown n, active := true }])
                  (w0.timers.length + 1) ++
                [{ kind := .multiplier n, active := true },
                 { kind := .statusCheck n, active := true }]),
              countdownTimerRef := some (w0.timers.length + 1),
              gameTimerRef := some (w0.timers.length + 1 + 1),
              statusCheckRef := some (w0.timers.length + 1 + 2),
              pending := .balWallet .finishLoading :: w0.pending.erase .startTx },
    ?_, rfl, rfl, rfl, ?_, rfl, rfl, rfl, ?_, rfl, rfl, rfl, ?_, rfl, rfl, rfl,
    ?_, rfl, ?_, rfl, ?_, ?_⟩
  · simp [resume, hp, continueWith, hs, setInterval, updateBalances, newHandle]
  · simp [fire, activeTimer, newHandle, hnew, countdownTick]
  · simp [fire, activeTimer, newHandle, hnew, countdownTick]
  · simp [fire, activeTimer, newHandle, hnew, countdownTick, clearRef_eq, startGameLoop,
      setInterval, cancel_length]
  · simpa [activeTimer, newHandle] using hoff
  · have h := timerAt_append_first
      (cancel (w0.timers ++ [{ kind := TimerKind.countdown n, active := true }])
        (w0.timers.length + 1))
      { kind := .multiplier n, active := true } { kind := .statusCheck n, active := true } rfl
    rw [hlen] at h
    exact h
  · have h := timerAt_append_second
      (cancel (w0.timers ++ [{ kind := TimerKind.countdown n, active := true }])
        (w0.timers.length + 1))
      { kind := .multiplier n, active := true } { kind := .statusCheck n, active := true } rfl
    rw [hlen] at h
    exact h
  · simp only [fire, newHandle, activeTimer]
    rw [hoff]

theorem countdown_three_ticks_witness :
    ∃ w1 w2 w3 w4,
      resume .startTx (.receipt [.gameStarted 7 "0xabc" (10 ^ 18)])
        { Controller.initial with pending := [.startTx] } = some w1 ∧
      fire 1 w1 = some w2 ∧ w2.gameStatus = .waiting ∧ w2.countdown = 2 ∧
      fire 1 w2 = some w3 ∧ w3.gameStatus = .waiting ∧ w3.countdown = 1 ∧
      fire 1 w3 = some w4 ∧ w4.gameStatus = .playing ∧ w4.countdown = 0 ∧
      activeTimer w4 1 = none ∧ activeTimer w4 2 = some (.multiplier 7) ∧
      activeTimer w4 3 = some (.statusCheck 7) ∧ fire 1 w4 = none :=
  have h := countdown_three_ticks { Controller.initial with pending := [.startTx] }
    [.gameStarted 7 "0xabc" (10 ^ 18)] 7 (by decide) (by rfl)
  match h with
  | ⟨w1, w2, w3, w4, h1, _, _, _, h2, h3, h4, _, h5, h6, h7, _, h9, h10, h11, _, h13, _, h14,
      _, h15, h16⟩ =>
    ⟨w1, w2, w3, w4, h1, h2, h3, h4, h5, h6, h7, h9, h10, h11, h13, h14, h15, h16⟩

/-- The function `resetGame` clears the session fields, cancels the three intervals its
handles refer to, and activates none. -/
theorem resetGame_clears (w : Controller) :
    (resetGame w).gameId = none ∧ (resetGame w).gameStatus = .idle ∧
      (resetGame w).multiplier = 100 ∧ (resetGame w).countdown = 0 ∧
      (resetGame w).error = none ∧ (resetGame w).lastPayout = none ∧
      (∀ h, w.gameTimerRef = some h ∨ w.countdownTimerRef = some h ∨ w.statusCheckRef = some h →
        activeTimer (resetGame w) h = none) ∧
      (∀ h, activeTimer w h = none → activeTimer (resetGame w) h = none) := by
  simp only [resetGame, clearRef_eq, activeTimer, true_and]
  refine ⟨?_, ?_⟩
  · rintro h (hh | hh | hh)
    · simp only [hh, Option.getD_some]
      exact timerAt_cancel_none _ _ _ (timerAt_cancel_none _ _ _ (timerAt_cancel_self _ _))
    · simp only [hh, Option.getD_some]
      exact timerAt_cancel_none _ _ _ (timerAt_cancel_self _ _)
    · simp only [hh, Option.getD_some]
      exact timerAt_cancel_self _ _
  · intro h hh
    exact timerAt_cancel_none _ _ _ (timerAt_cancel_none _ _ _ (timerAt_cancel_none _ _ _ hh))

/-- When a status check for session `g` is answered `false` and the game record is then
read, the intervals held in `gameTimerRef` and `statusCheckRef` are cancelled, the status
is `crashed` and the multiplier is the crash point of the record. -/
theorem statusCheck_crash (w : Controller) (g : Nat) (info : RawGameInfo)
    (hp : Cont.statusCheck g ∈ w.pending) :
    ∃ w1 w2, resume (.statusCheck g) (.bool false) w = some w1 ∧
      resume (.statusInfo g) (.gameInfo info) w1 = some w2 ∧
      w1.gameStatus = w.gameStatus ∧ w1.multiplier = w.multiplier ∧
      w2.gameStatus = .crashed ∧ w2.multiplier = (getGameInfo info).crashPoint ∧
      w2.timers = w1.timers ∧
      (∀ h, w.gameTimerRef = some h ∨ w.statusCheckRef = some h → activeTimer w1 h = none) := by
  refine ⟨
    { w with timers := cancel (cancel w.timers (w.gameTimerRef.getD 0))
               (w.statusCheckRef.getD 0),
             pending := .statusInfo g :: w.pending.erase (.statusCheck g) },
    { w with timers := cancel (cancel w.timers (w.gameTimerRef.getD 0))
               (w.statusCheckRef.getD 0),
             gameStatus := .crashed, multiplier := (getGameInfo info).crashPoint,
             pending := .balWallet .nothing :: w.pending.erase (.statusCheck g) },
    ?_, ?_, rfl, rfl, rfl, rfl, rfl, ?_⟩
  · simp [resume, hp, continueWith, clearRef_eq]
  · simp [resume, continueWith, updateBalances]
  · rintro h (hh | hh)
    · simp only [activeTimer, hh, Option.getD_some]
      exact timerAt_cancel_none _ _ _ (timerAt_cancel_self _ _)
    · simp only [activeTimer, hh, Option.getD_some]
      exact timerAt_cancel_self _ _

/-! ## Executions that contradict the specification -/

/-- The balance check of `handleStartGame` at its edge: 10^18 - 56 wei is rejected with
"Solde insuffisant (minimum 1 ETH requis)", 10^18 - 55 wei is not. -/
theorem handleStartGame_threshold (w : Controller) (address : String) :
    resume .startBalance (.balance address (10 ^ 18 - 56)) (handleStartGame w) =
        some { w with isLoading := false, lastPayout := none, gameStatus := .idle,
                      error := some "Solde insuffisant (minimum 1 ETH requis)" } ∧
      resume .startBalance (.balance address (10 ^ 18 - 55)) (handleStartGame w) =
        some { w with isLoading := true, error := none, lastPayout := none,
                      pending := .startTx :: w.pending } := by
  have h56 : (parseFloat (formatEther 999999999999999944)).ltNat 1 = true := by decide
  have h55 : (parseFloat (formatEther 999999999999999945)).ltNat 1 = false := by decide
  constructor
  · simp [resume, handleStartGame, continueWith, getWalletBalance, h56, startFailed, messageOr]
  · simp [resume, handleStartGame, continueWith, getWalletBalance, h55]

/-- C1 (failing input): a wallet holding 10^18 - 1 wei, one wei less than the stake, is
not rejected by `handleStartGame`. Its balance reads "0.999999999999999999", which
`parseFloat` rounds to 1, so the check `< 1` fails, no error is set, and the handler
goes on to await `startGame()`. -/
theorem handleStartGame_admits_below_stake (w : Controller) (address : String) :
    (getWalletBalance address (10 ^ 18 - 1)).balance = "0.999999999999999999" ∧
    parseFloat "0.999999999999999999" = .finite unitsPerOne ∧
    resume .startBalance (.balance address (10 ^ 18 - 1)) (handleStartGame w) =
      some { w with isLoading := true, error := none, lastPayout := none,
                    pending := .startTx :: w.pending } := by
  have hb : (parseFloat (formatEther 999999999999999999)).ltNat 1 = false := by decide
  have hf : formatEther (10 ^ 18 - 1) = "0.999999999999999999" := by decide
  refine ⟨hf, by decide, ?_⟩
  simp [resume, handleStartGame, continueWith, getWalletBalance, hb]

/-- C14: when the multiplier interval of session `g` fires and `getCurrentMultiplier(g)`
returns `v`, the state afterwards is the state before with the multiplier set to `v`:
status, session id, countdown, error, last payout, loading flag, handles and timers are
unchanged. When the read fails the state afterwards is the state before, and the
interval is still active. -/
theorem multiplier_callback_frame (w : Controller) (h g raw : Nat) (m : String)
    (hf : activeTimer w h = some (.multiplier g)) :
    ∃ w1, fire h w = some w1 ∧
      resume (.multiplier g) (.uint raw) w1 =
        some { w with multiplier := getCurrentMultiplier raw } ∧
      resume (.multiplier g) (.failure m) w1 = some w ∧
      activeTimer { w with multiplier := getCurrentMultiplier raw } h
        = some (.multiplier g) := by
  refine ⟨{ w with pending := .multiplier g :: w.pending }, ?_, ?_, ?_, hf⟩
  · simp [fire, hf]
  · simp [resume, continueWith]
  · simp [resume, continueWith]

/-- The multiplier interval, handle 1, of the initial state with a game loop started. -/
theorem multiplier_callback_frame_witness :
    ∃ w1, fire 1 (startGameLoop 7 Controller.initial) = some w1 ∧
      resume (.multiplier 7) (.uint 137) w1 =
        some { startGameLoop 7 Controller.initial with multiplier := 137 } ∧
      resume (.multiplier 7) (.failure "timeout") w1 = some (startGameLoop 7 Controller.initial) :=
  have h := multiplier_callback_frame (startGameLoop 7 Controller.initial) 1 7 137 "timeout"
    (by decide)
  match h with
  | ⟨w1, h1, h2, h3, _⟩ => ⟨w1, h1, h2.trans (by decide), h3⟩


/-! ## Suspended calls -/

@[simp]
theorem afterExisting_pending (viaButton : Bool) (w : Controller) :
    (afterExisting viaButton w).pending = w.pending := by
  cases viaButton <;> rfl

@[simp]
theorem afterExisting_gameStatus (viaButton : Bool) (w : Controller) :
    (afterExisting viaButton w).gameStatus = w.gameStatus := by
  cases viaButton <;> rfl

@[simp]
theorem afterBalances_gameStatus (k : After) (w : Controller) :
    (afterBalances k w).gameStatus = w.gameStatus := by
  cases k <;> rfl

@[simp]
theorem withdrawTx_mem_afterBalances (k : After) (w : Controller) (g : Nat) :
    Cont.withdrawTx g ∈ (afterBalances k w).pending ↔ Cont.withdrawTx g ∈ w.pending := by
  cases k <;> simp [afterBalances, checkExistingGame]

/-- A withdrawal left suspended by `continueWith` was suspended before. -/
theorem continueWith_pending (c : Cont) (r : Response) (w w' : Controller) (g : Nat)
    (h : continueWith c r w = some w') (hg : Cont.withdrawTx g ∈ w'.pending) :
    Cont.withdrawTx g ∈ w.pending := by
  unfold continueWith at h
  split at h
  all_goals try simp only [] at h
  all_goals try split at h
  all_goals first
    | (cases h
       simpa [updateBalances, startFailed, withdrawFailed, clearRef_eq, startGameLoop,
         setInterval] using hg)
    | (cases h)


/-- The function `handleWithdraw` never awaits a withdrawal of session 0. -/
theorem handleWithdraw_pending_zero (w : Controller)
    (hz : Cont.withdrawTx 0 ∉ w.pending) : Cont.withdrawTx 0 ∉ (handleWithdraw w).pending := by
  unfold handleWithdraw
  split
  · exact hz
  · exact hz
  · rename_i g hne _
    intro hmem
    rcases List.mem_cons.mp hmem with heq | hold
    · have : g = 0 := by
        injection heq with h1
        exact h1.symm
      subst this
      exact hne rfl
    · exact hz hold

/-- No event makes the component await a withdrawal of session 0. -/
theorem step_pending_zero (w w' : Controller) (e : Event) (h : step w e = some w')
    (hz : Cont.withdrawTx 0 ∉ w.pending) : Cont.withdrawTx 0 ∉ w'.pending := by
  cases e with
  | clickConnect =>
    simp only [step] at h
    split at h
    · cases h
      simpa [handleConnectWallet] using hz
    · cases h
  | clickStart =>
    simp only [step] at h
    split at h
    · cases h
      simpa [handleStartGame] using hz
    · cases h
  | clickWithdraw =>
    simp only [step] at h
    split at h
    · cases h
      exact handleWithdraw_pending_zero w hz
    · cases h
  | clickReset =>
    simp only [step] at h
    split at h
    · cases h
      simpa [resetGame, clearRef_eq] using hz
    · cases h
  | tick handle =>
    simp only [step, fire] at h
    split at h
    · cases h
      unfold countdownTick
      split
      · simpa [clearRef_eq, startGameLoop, setInterval] using hz
      · exact hz
    · cases h
      simpa using hz
    · cases h
      simpa using hz
    · cases h
  | answer c r =>
    simp only [step, resume] at h
    split at h
    · intro hmem
      have h2 := continueWith_pending c r _ w' 0 h hmem
      exact hz (List.mem_of_mem_erase h2)
    · cases h
  | unmount =>
    simp only [step] at h
    cases h
    simpa [cleanup, clearRef_eq] using hz

/-- In no reachable state is a withdrawal of session 0 awaited. -/
theorem run_pending_zero (events : List Event) (w w' : Controller)
    (h : run w events = some w') (hz : Cont.withdrawTx 0 ∉ w.pending) :
    Cont.withdrawTx 0 ∉ w'.pending := by
  induction events generalizing w with
  | nil =>
    simp only [run] at h
    cases h
    exact hz
  | cons e es ih =>
    simp only [run] at h
    cases hs : step w e with
    | none => simp [hs] at h
    | some w1 =>
      rw [hs] at h
      exact ih w1 h (step_pending_zero w w1 e hs hz)

/-- C19: when the session id is null or 0, `handleWithdraw` returns the state as it
is: no call is awaited and no field changes; and in no reachable state is a call
`withdrawFromGame(0)` awaited, so a session with id 0 is never withdrawn. -/
theorem handleWithdraw_falsy (w w' : Controller)
    (hid : w.gameId = none ∨ w.gameId = some 0) (hr : Reachable w') :
    handleWithdraw w = w ∧ Cont.withdrawTx 0 ∉ w'.pending := by
  constructor
  · rcases hid with h | h <;> simp [handleWithdraw, h]
  · obtain ⟨events, hrun⟩ := hr
    exact run_pending_zero events _ _ hrun (by decide)

/-- The withdrawal of a session with id 0 in a state where the button is enabled. -/
theorem handleWithdraw_falsy_witness :
    handleWithdraw { Controller.initial with gameId := some 0, gameStatus := .playing }
        = { Controller.initial with gameId := some 0, gameStatus := .playing } ∧
      Cont.withdrawTx 0 ∉ Controller.initial.pending :=
  handleWithdraw_falsy { Controller.initial with gameId := some 0, gameStatus := .playing }
    Controller.initial (Or.inr rfl) ⟨[], rfl⟩


/-! ## Status changes -/

/-- An answer changes the status only to a value its operation writes. -/
theorem continueWith_status (c : Cont) (r : Response) (w w' : Controller)
    (h : continueWith c r w = some w') (hc : w'.gameStatus ≠ w.gameStatus) :
    writesStatus (.answer c r) w'.gameStatus = true := by
  unfold continueWith at h
  split at h
  all_goals try simp only [] at h
  all_goals try split at h
  all_goals first
    | (cases h
       simp [updateBalances, startFailed, withdrawFailed, clearRef_eq, startGameLoop,
         setInterval, writesStatus] at hc ⊢)
    | (cases h)

/-- C13 (amended): an event changes the status only to a value its operation writes:
`handleStartGame` to `waiting` on success and to `idle` on failure, the countdown
callback to `playing`, the status callback to `crashed`, `handleWithdraw` to `won`,
`resetGame` to `idle`, `checkExistingGame` to `playing`. `resetGame` can be clicked only
in `crashed` or `won`, so its change follows an edge of the specification;
`handleStartGame` can be clicked only in `idle` and `handleWithdraw` only in `playing`. -/
theorem status_changes (w w' : Controller) (e : Event) (h : step w e = some w') :
    (w'.gameStatus ≠ w.gameStatus → writesStatus e w'.gameStatus = true) ∧
      (e = .clickReset → specEdge w.gameStatus w'.gameStatus = true) ∧
      (e = .clickStart → w.gameStatus = .idle ∧ w'.gameStatus = .idle) ∧
      (e = .clickWithdraw → w.gameStatus = .playing ∧ w'.gameStatus = .playing) := by
  cases e with
  | clickConnect =>
    simp only [step] at h
    split at h
    · cases h
      simp [handleConnectWallet]
    · cases h
  | clickStart =>
    simp only [step] at h
    split at h
    · rename_i hen
      cases h
      simp only [Bool.and_eq_true, decide_eq_true_eq] at hen
      simp [handleStartGame, hen.1.2]
    · cases h
  | clickWithdraw =>
    simp only [step] at h
    split at h
    · rename_i hen
      cases h
      simp only [Bool.and_eq_true, decide_eq_true_eq] at hen
      have hs : (handleWithdraw w).gameStatus = w.gameStatus := by
        unfold handleWithdraw
        split <;> rfl
      simp [hs, hen.1.2]
    · cases h
  | clickReset =>
    simp only [step] at h
    split at h
    · rename_i hen
      cases h
      simp only [Bool.and_eq_true, Bool.or_eq_true, decide_eq_true_eq] at hen
      have hs : (resetGame w).gameStatus = .idle := by simp [resetGame, clearRef_eq]
      rcases hen.2 with h1 | h1 <;> simp [hs, h1, specEdge, writesStatus]
    · cases h
  | tick handle =>
    simp only [step, fire] at h
    refine ⟨?_, by simp, by simp, by simp⟩
    intro hc
    split at h
    · cases h
      unfold countdownTick at hc ⊢
      split
      · simp [clearRef_eq, startGameLoop, setInterval, writesStatus]
      · rename_i hgt
        simp [hgt] at hc
    · cases h
      exact absurd rfl hc
    · cases h
      exact absurd rfl hc
    · cases h
  | answer c r =>
    simp only [step, resume] at h
    refine ⟨?_, by simp, by simp, by simp⟩
    intro hc
    split at h
    · exact continueWith_status c r _ w' h hc
    · cases h
  | unmount =>
    simp only [step] at h
    cases h
    simp [cleanup, clearRef_eq]

/-- The reset of a connected component in status `crashed`. -/
theorem status_changes_witness :
    step { Controller.initial with account := some "0xabc", gameStatus := .crashed } .clickReset
        = some (resetGame
            { Controller.initial with account := some "0xabc", gameStatus := .crashed }) ∧
      writesStatus .clickReset
        (resetGame { Controller.initial with account := some "0xabc",
                                              gameStatus := .crashed }).gameStatus = true ∧
      specEdge .crashed
        (resetGame { Controller.initial with account := some "0xabc",
                                              gameStatus := .crashed }).gameStatus = true :=
  have h := status_changes
    { Controller.initial with account := some "0xabc", gameStatus := .crashed }
    (resetGame { Controller.initial with account := some "0xabc", gameStatus := .crashed })
    .clickReset (by decide)
  ⟨by decide, h.1 (by decide), h.2.1 rfl⟩

/-- C13 (counterexample): when the mount effect finds the running session 7,
`checkExistingGame` changes the status from `idle` to `playing`, which is no edge of the
specification: `playing` is entered without passing through `waiting`. -/
theorem playing_entered_from_idle :
    (run .initial (connectAnswers false 7)).map (fun w => w.gameStatus) = some .idle ∧
      (run .initial resumeEvents).map (fun w => (w.gameId, w.gameStatus))
        = some (some 7, .playing) ∧
      resumeEvents = connectAnswers false 7 ++
        [.answer (.existingInfo 7 false) (.gameInfo activeInfo)] ∧
      specEdge .idle .playing = false := by
  decide


/-! ## Teardown and stale answers -/

/-- The cleanup of the mount effect cancels the three intervals its handles refer to,
activates none and changes nothing else. -/
theorem cleanup_clears (w : Controller) :
    (cleanup w).gameStatus = w.gameStatus ∧ (cleanup w).pending = w.pending ∧
      (∀ h, w.gameTimerRef = some h ∨ w.countdownTimerRef = some h ∨ w.statusCheckRef = some h →
        activeTimer (cleanup w) h = none) ∧
      (∀ h, activeTimer w h = none → activeTimer (cleanup w) h = none) := by
  simp only [cleanup, clearRef_eq, activeTimer, true_and]
  refine ⟨?_, ?_⟩
  · rintro h (hh | hh | hh)
    · simp only [hh, Option.getD_some]
      exact timerAt_cancel_none _ _ _ (timerAt_cancel_none _ _ _ (timerAt_cancel_self _ _))
    · simp only [hh, Option.getD_some]
      exact timerAt_cancel_none _ _ _ (timerAt_cancel_self _ _)
    · simp only [hh, Option.getD_some]
      exact timerAt_cancel_self _ _
  · intro h hh
    exact timerAt_cancel_none _ _ _ (timerAt_cancel_none _ _ _ (timerAt_cancel_none _ _ _ hh))

/-- C15 (failing execution): after both connection paths resumed session 7, the
intervals 1 to 4 are active but the handles hold only 3 and 4: the second call of
`startGameLoop` overwrote the handles 1 and 2 while their intervals were active. The
teardown cancels 3 and 4 and leaves 1 and 2 active. -/
theorem teardown_leaves_timers :
    (run .initial resumedTwiceEvents).map
        (fun w => (w.gameStatus, activeHandles w, w.gameTimerRef, w.statusCheckRef))
        = some (.playing, [1, 2, 3, 4], some 3, some 4) ∧
      (run .initial resumedTwiceEvents).map (fun w => w.countdownTimerRef) = some none ∧
      (run .initial (resumedTwiceEvents ++ [.unmount])).map
        (fun w => (activeHandles w, activeTimer w 1, activeTimer w 2))
        = some ([1, 2], some (.multiplier 7), some (.statusCheck 7)) := by
  decide

/-- C20: `checkExistingGame` resumes a session exactly when `getPlayerCurrentGame`
returns `g > 0` and the game record of `g` is active, not withdrawn and not crashed: it
then sets the session id to `g`, the status to `playing` and starts the game loop for
`g`, with no countdown. When `getPlayerCurrentGame` fails or returns 0 (no record is
read), when `getGameInfo` fails, and when the record is inactive, withdrawn or crashed,
the state is as before the call. No path writes the error. On return, the `finally` of
`handleConnectWallet` clears the loading flag when that was the caller. -/
theorem checkExistingGame_resumes_iff (w : Controller) (walletAddress : Option String)
    (viaButton : Bool) (v0 v : Nat) (info : RawGameInfo) (m : String)
    (h0 : getPlayerCurrentGame v0 = 0) (hv : 0 < getPlayerCurrentGame v) :
    resumeAll (checkExistingGame walletAddress viaButton w)
        [(.existingId walletAddress viaButton, .failure m)] = some (afterExisting viaButton w) ∧
      resumeAll (checkExistingGame walletAddress viaButton w)
        [(.existingId walletAddress viaButton, .uint v0)] = some (afterExisting viaButton w) ∧
      resumeAll (checkExistingGame walletAddress viaButton w)
        [(.existingId walletAddress viaButton, .uint v),
         (.existingInfo (getPlayerCurrentGame v) viaButton, .failure m)]
        = some (afterExisting viaButton w) ∧
      resumeAll (checkExistingGame walletAddress viaButton w)
        [(.existingId walletAddress viaButton, .uint v),
         (.existingInfo (getPlayerCurrentGame v) viaButton, .gameInfo info)]
        = some (if (getGameInfo info).isActive = true ∧ (getGameInfo info).hasWithdrawn = false ∧
              (getGameInfo info).hasCrashed = false then
            afterExisting viaButton (startGameLoop (getPlayerCurrentGame v)
              { w with gameId := some (getPlayerCurrentGame v), gameStatus := .playing })
          else afterExisting viaButton w) ∧
      (afterExisting viaButton (startGameLoop (getPlayerCurrentGame v)
          { w with gameId := some (getPlayerCurrentGame v), gameStatus := .playing })).timers
        = w.timers ++ [{ kind := .multiplier (getPlayerCurrentGame v), active := true },
            { kind := .statusCheck (getPlayerCurrentGame v), active := true }] ∧
      (afterExisting viaButton (startGameLoop (getPlayerCurrentGame v)
          { w with gameId := some (getPlayerCurrentGame v), gameStatus := .playing })).error
        = w.error ∧
      (afterExisting viaButton (startGameLoop (getPlayerCurrentGame v)
          { w with gameId := some (getPlayerCurrentGame v), gameStatus := .playing })).countdown
        = w.countdown ∧
      afterExisting false w = w ∧ afterExisting true w = { w with isLoading := false } := by
  refine ⟨?_, ?_, ?_, ?_, ?_, ?_, ?_, rfl, rfl⟩
  · simp [resumeAll, resume, checkExistingGame, continueWith]
  · simp [resumeAll, resume, checkExistingGame, continueWith, h0]
  · simp [resumeAll, resume, checkExistingGame, continueWith, hv]
  · by_cases hc : (getGameInfo info).isActive = true ∧ (getGameInfo info).hasWithdrawn = false ∧
        (getGameInfo info).hasCrashed = false
    · simp [resumeAll, resume, checkExistingGame, continueWith, hv, hc]
    · rw [if_neg hc]
      have hb : ((getGameInfo info).isActive && !(getGameInfo info).hasWithdrawn &&
          !(getGameInfo info).hasCrashed) = false := by
        revert hc
        cases (getGameInfo info).isActive <;> cases (getGameInfo info).hasWithdrawn <;>
          cases (getGameInfo info).hasCrashed <;> simp
      simp [resumeAll, resume, checkExistingGame, continueWith, hv, hb]
  · cases viaButton <;> simp [afterExisting, startGameLoop, setInterval]
  · cases viaButton <;> simp [afterExisting, startGameLoop, setInterval]
  · cases viaButton <;> simp [afterExisting, startGameLoop, setInterval]

/-- The mount effect finding session 7 running, and finding it crashed. -/
theorem checkExistingGame_resumes_iff_witness :
    resumeAll (checkExistingGame (some "0xabc") false Controller.initial)
        [(.existingId (some "0xabc") false, .uint 0)] = some Controller.initial ∧
      resumeAll (checkExistingGame (some "0xabc") false Controller.initial)
        [(.existingId (some "0xabc") false, .uint 7),
         (.existingInfo 7 false, .gameInfo activeInfo)]
        = some (startGameLoop 7
            { Controller.initial with gameId := some 7, gameStatus := .playing }) ∧
      resumeAll (checkExistingGame (some "0xabc") false Controller.initial)
        [(.existingId (some "0xabc") false, .uint 7),
         (.existingInfo 7 false, .gameInfo crashedInfo)] = some Controller.initial :=
  have h := checkExistingGame_resumes_iff Controller.initial (some "0xabc") false 0 7
    activeInfo "timeout" (by decide) (by decide)
  have h2 := checkExistingGame_resumes_iff Controller.initial (some "0xabc") false 0 7
    crashedInfo "timeout" (by decide) (by decide)
  ⟨h.2.1, h.2.2.2.1.trans (by decide), h2.2.2.2.1.trans (by decide)⟩

end CrashGame
